import Mathlib

/-!
Verification of the flood-map generator (`app.py`) and of its Coordinate
Sanity Checker against the repository's specification.

The repository consists of near-duplicate variants of one script; the
variant under `src/app.py` contains the templating and I/O glue
(`check_files`, `write_index_html`, `write_vercel_json`, `serve_local`,
`main`), which is embedded below as pure functions from an explicit
environment to a list of effects.  The Coordinate Sanity Checker is the
spec's nominal core and is not present in this variant of the script, so
it is modelled from the spec (§3, §4.1) — each such definition is marked
`Modelled from the spec:` in its doc comment.
-/

namespace Flood

/-- JSON-like values: the shape of parsed GeoJSON data and of the
`vercel.json` object.  Numbers are modelled as rationals. -/
inductive JValue where
  | num (v : ℚ)
  | str (s : String)
  | arr (xs : List JValue)
  | obj (kvs : List (String × JValue))
  | null

/-- Modelled from the spec: a Feature has a Geometry (its nested numeric
coordinate structure, absent when the geometry key is missing) and a
mapping of string keys to values ("properties").  The checker itself is
missing from `src/` (only the glue variant of the script is there). -/
structure Feature where
  geometry : Option JValue
  properties : List (String × JValue) := []

/-- Modelled from the spec: a Geometry Collection is an ordered sequence
of Features. -/
structure GeometryCollection where
  features : List Feature

/-- Modelled from the spec: the three classifications produced by the
Coordinate Sanity Checker. -/
inductive CheckResult where
  | Valid
  | SuspiciousProjection
  | Inconclusive
deriving DecidableEq, Repr

/-- Modelled from the spec (§4.1 steps 3-4): repeatedly unwrap one level
of nesting while the current value is a non-empty sequence whose first
element is itself a non-empty sequence; on reaching a sequence whose
first element is a scalar number, return that first scalar.  Any
structural failure (empty sequence, non-numeric leaf, type mismatch)
yields `none`. -/
def unwrap : JValue → Option ℚ
  | .arr (first :: _) =>
    match first with
    | .num v => some v
    | .arr (_ :: _) => unwrap first
    | _ => none
  | _ => none

/-- Modelled from the spec (§4.1 steps 1-4): the representative coordinate
component of a collection — take the first Feature's Geometry and unwrap
its coordinate structure down to the first scalar. -/
def representative (gc : GeometryCollection) : Option ℚ :=
  match gc.features with
  | [] => none
  | f :: _ =>
    match f.geometry with
    | none => none
    | some coords => unwrap coords

/-- Modelled from the spec (§6): the diagnostic emitted on
SuspiciousProjection, naming the offending numeric value and recommending
re-export in a geographic (degrees-based) reference system. -/
def diagnostic (v : ℚ) : String :=
  "coordinate value " ++ toString v ++
    " looks like projected meters, not degrees; re-export the data in a geographic (degrees-based) reference system"

/-- Modelled from the spec (§4.1): the Coordinate Sanity Checker.  Returns
the classification together with the optional diagnostic string. -/
def checkCoordinates (gc : GeometryCollection) : CheckResult × Option String :=
  match representative gc with
  | none => (.Inconclusive, none)
  | some v =>
    if 180 < |v| then (.SuspiciousProjection, some (diagnostic v))
    else (.Valid, none)

/-- A structural anomaly in the sense of the spec (§4.1 step 6, §7): zero
Features, a missing Geometry, or an unwrap failure (empty sequence,
non-numeric leaf, type mismatch, unsupported variant shape). -/
def anomalous (gc : GeometryCollection) : Bool :=
  match gc.features with
  | [] => true
  | f :: _ =>
    match f.geometry with
    | none => true
    | some coords => (unwrap coords).isNone

/-- Polygon fixture of the spec's §8: first ring's first coordinate pair
is (312450.7, 812345.2). -/
def polygonFixture : GeometryCollection :=
  ⟨[{ geometry := some (.arr [.arr
      [.arr [.num 312450.7, .num 812345.2],
       .arr [.num 312460.0, .num 812300.0],
       .arr [.num 312450.7, .num 812345.2]]]) }]⟩

/-- Point fixture of the spec's §8: coordinates (79.86, 6.93). -/
def pointFixture : GeometryCollection :=
  ⟨[{ geometry := some (.arr [.num 79.86, .num 6.93]) }]⟩

/-- MultiPolygon fixture of the spec's §8: one nesting level deeper than a
Polygon, first scalar value 80.1. -/
def multiPolygonFixture : GeometryCollection :=
  ⟨[{ geometry := some (.arr [.arr [.arr
      [.arr [.num 80.1, .num 7.05],
       .arr [.num 80.2, .num 7.1],
       .arr [.num 80.1, .num 7.05]]]]) }]⟩

/-! ## Embedding of `src/app.py` (the glue variant)

The script's observable behaviour is modelled as a pure function from an
environment (command-line arguments plus which of the two expected input
files exist in the working directory) to the ordered list of effects it
performs: printed lines, file writes and the optional local server. -/

/-- Module-level constant `SAFE_TIF` of `app.py`. -/
def SAFE_TIF : String := "sentinel_2025-11-30.tif"

/-- Module-level constant `GEOJSON` of `app.py`. -/
def GEOJSON : String := "kelani.geojson"

/-- Module-level constant `INDEX` of `app.py`. -/
def INDEX : String := "index.html"

/-- Module-level constant `VERCEL` of `app.py`. -/
def VERCEL : String := "vercel.json"

/-- The environment a run of `app.py` observes: `sys.argv` (minus the
program name) and whether each of the two expected input files exists in
the current working directory. -/
structure Env where
  argv : List String
  tif_exists : Bool
  geo_exists : Bool

/-- One observable effect of a run of `app.py`. -/
inductive Effect where
  | print (s : String)
  | writeFile (name content : String)
  | writeJson (name : String) (v : JValue)
  | serve (port : Nat)
  | openBrowser (url : String)

/-- `check_files` of `app.py`: whether `SAFE_TIF` and `GEOJSON` exist in
the working directory. -/
def check_files (env : Env) : Bool × Bool :=
  (env.tif_exists, env.geo_exists)

/-- The f-string template of `write_index_html` in `app.py`, with the
doubled braces of the Python f-string rendered as the single braces they
produce and the two interpolation fields `SAFE_TIF` / `GEOJSON` as
parameters.  Braces, quotes and apostrophes appear as hex escapes. -/
def index_html (safe_tif geojson : String) : String :=
  "<!doctype html>\n<html lang=\x22en\x22>\n<head>\n  <meta charset=\x22utf-8\x22 />\n"
  ++ "  <title>Flood Map (QGIS Style)</title>\n  <meta name=\x22viewport\x22 content=\x22width=device-width, initial-scale=1.0\x22>\n"
  ++ "  <link rel=\x22stylesheet\x22 href=\x22https://unpkg.com/leaflet@1.9.4/dist/leaflet.css\x22 />\n"
  ++ "  <style>\n    html, body, #map \x7b height:100%; margin:0; padding:0; \x7d \n    #map \x7b width:100%; height:100vh; background: #202020; \x7d\n"
  ++ "  </style>\n</head>\n<body>\n  <div id=\x22map\x22></div>\n  \n  <script src=\x22https://unpkg.com/leaflet@1.9.4/dist/leaflet.js\x22></script>\n"
  ++ "  <script src=\x22https://unpkg.com/georaster@1.6.0/dist/georaster.browserify.min.js\x22></script>\n"
  ++ "  <script src=\x22https://unpkg.com/georaster-layer-for-leaflet@3.10.0/dist/georaster-layer-for-leaflet.min.js\x22></script>\n"
  ++ "  \n  <script>\n  document.addEventListener(\x22DOMContentLoaded\x22, async function() \x7b\n"
  ++ "    // 1. Define Base Maps\n    const osm = L.tileLayer(\x27https://tile.openstreetmap.org/\x7bz\x7d/\x7bx\x7d/\x7by\x7d.png\x27, \x7b\n"
  ++ "        maxZoom: 19, \n        attribution: \x27&copy; OpenStreetMap\x27\n    \x7d);\n"
  ++ "\n    const satellite = L.tileLayer(\x27https://server.arcgisonline.com/ArcGIS/rest/services/World_Imagery/MapServer/tile/\x7bz\x7d/\x7by\x7d/\x7bx\x7d\x27, \x7b\n"
  ++ "        attribution: \x27Tiles &copy; Esri &mdash; Source: Esri, i-cubed, USDA, USGS, AEX, GeoEye, Getmapping, Aerogrid, IGN, IGP, UPR-EGP, and the GIS User Community\x27\n"
  ++ "    \x7d);\n\n    // Initialize Map\n    const map = L.map(\x27map\x27, \x7b\n        center: [7.2, 80.6], \n"
  ++ "        zoom: 9,\n        layers: [satellite] \n    \x7d);\n\n    // 2. Setup Layer Groups\n    const baseMaps = \x7b\n"
  ++ "        \x22Satellite Map\x22: satellite,\n        \x22Standard Map\x22: osm\n    \x7d;\n    \n    const overlayMaps = \x7b\x7d;\n"
  ++ "    const layerControl = L.control.layers(baseMaps, overlayMaps, \x7b collapsed: false \x7d).addTo(map);\n"
  ++ "\n    const tifUrl = \x27"
  ++ safe_tif
  ++ "\x27;\n    const geojsonUrl = \x27"
  ++ geojson
  ++ "\x27;\n\n    // --- Helper to load TIFF ---\n    async function loadGeoTIFF(url) \x7b\n"
  ++ "      const resp = await fetch(url);\n      if (!resp.ok) throw new Error(\x27Failed to fetch \x27 + url);\n"
  ++ "      const arrayBuffer = await resp.arrayBuffer();\n      \n      // FIX: Access parseGeoraster from the window object explicitly\n"
  ++ "      if (typeof window.parseGeoraster !== \x27function\x27) \x7b\n"
  ++ "         console.error(\x22GeoRaster library not loaded correctly\x22);\n         throw new Error(\x22parseGeoraster is missing\x22);\n"
  ++ "      \x7d\n      \n      return await window.parseGeoraster(arrayBuffer);\n    \x7d\n"
  ++ "\n    // 3. Load Sentinel TIFF (Raster)\n    try \x7b\n      const georaster = await loadGeoTIFF(tifUrl);\n"
  ++ "      \n      const rasterLayer = new GeoRasterLayer(\x7b\n        georaster: georaster,\n        opacity: 1.0,\n"
  ++ "        resolution: 256,\n        pixelValuesToColorFn: function(pixelValues) \x7b\n          if (!pixelValues) return null;\n"
  ++ "          \n          const scale = (value) => \x7b\n            if (value <= 1.5 && value >= 0) return Math.round(value * 255); \n"
  ++ "            // 16-bit scaling\n            let scaled = value / 15; \n            if (scaled > 255) scaled = 255;\n"
  ++ "            if (scaled < 0) scaled = 0;\n            return Math.round(scaled);\n          \x7d;\n"
  ++ "\n          if (pixelValues.length >= 3) \x7b\n            const r = scale(pixelValues[0]);\n"
  ++ "            const g = scale(pixelValues[1]);\n            const b = scale(pixelValues[2]);\n"
  ++ "            if (r === 0 && g === 0 && b === 0) return null; \n"
  ++ "            return \x27rgba(\x27 + r + \x27,\x27 + g + \x27,\x27 + b + \x27, 1)\x27;\n          \x7d\n"
  ++ "          \n          const gray = scale(pixelValues[0]);\n          if (gray === 0) return null;\n"
  ++ "          return \x27rgba(\x27 + gray + \x27,\x27 + gray + \x27,\x27 + gray + \x27, 1)\x27;\n        \x7d\n      \x7d);\n"
  ++ "      \n      rasterLayer.addTo(map);\n      layerControl.addOverlay(rasterLayer, \x22Sentinel Imagery\x22);\n"
  ++ "      map.fitBounds(rasterLayer.getBounds());\n      \n    \x7d catch(e) \x7b\n"
  ++ "      console.warn(\x27Raster load skipped or failed:\x27, e);\n    \x7d\n"
  ++ "\n    // 4. Load Kelani GeoJSON\n    try \x7b\n      const r = await fetch(geojsonUrl);\n      if (r.ok) \x7b\n"
  ++ "        const gj = await r.json();\n        const floodLayer = L.geoJSON(gj, \x7b\n          style: \x7b\n"
  ++ "            color: \x27#00BFFF\x27,       \n            weight: 2,\n            fillColor: \x27#00BFFF\x27,   \n"
  ++ "            fillOpacity: 0.3        \n          \x7d,\n          onEachFeature: function(feature, layer) \x7b\n"
  ++ "            const props = feature.properties || \x7b\x7d;\n"
  ++ "            let popup = \x27<h3>Flood Area</h3>\x27;\n            for (let k in props) popup += \x27<b>\x27 + k + \x27</b>: \x27 + props[k] + \x27<br>\x27;\n"
  ++ "            layer.bindPopup(popup);\n          \x7d\n        \x7d);\n\n        floodLayer.addTo(map);\n"
  ++ "        layerControl.addOverlay(floodLayer, \x22Flooded Areas\x22);\n        floodLayer.bringToFront();\n"
  ++ "      \x7d\n    \x7d catch(e) \x7b\n      console.warn(\x27GeoJSON load error:\x27, e);\n"
  ++ "    \x7d\n\n  \x7d);\n  </script>\n</body>\n</html>\n"

/-- `write_index_html` of `app.py`: writes the template — which depends
only on the module-level constants `SAFE_TIF` and `GEOJSON` — to
`INDEX`.  The function reads nothing from its environment. -/
def write_index_html (_ : Env) : Effect :=
  .writeFile INDEX (index_html SAFE_TIF GEOJSON)

/-- The fixed JSON object of `write_vercel_json` in `app.py`. -/
def vercel_json : JValue :=
  .obj [("version", .num 2),
        ("builds", .arr [.obj [("src", .str INDEX), ("use", .str "@vercel/static")]]),
        ("routes", .arr [.obj [("src", .str "/(.*)"), ("dest", .str ("/" ++ INDEX))]])]

/-- `write_vercel_json` of `app.py`: writes the fixed object to `VERCEL`.
The function reads nothing from its environment. -/
def write_vercel_json (_ : Env) : Effect :=
  .writeJson VERCEL vercel_json

/-- `serve_local` of `app.py`: announces the URL, opens a browser tab and
serves the current folder on the given port. -/
def serve_local (port : Nat) : List Effect :=
  let url := "http://localhost:" ++ toString port ++ "/"
  [.print ("Serving current folder at " ++ url ++ "  (Press Ctrl+C to stop)"),
   .openBrowser url,
   .serve port]

/-- `main` of `app.py` as the ordered list of effects it performs in the
given environment. -/
def main (env : Env) : List Effect :=
  let res := check_files env
  let tif_exists := res.1
  let geo_exists := res.2
  [Effect.print "--- Flood Map Generator ---",
   if !tif_exists then Effect.print ("[MISSING] " ++ SAFE_TIF)
     else Effect.print ("[OK] " ++ SAFE_TIF),
   if !geo_exists then Effect.print ("[MISSING] " ++ GEOJSON)
     else Effect.print ("[OK] " ++ GEOJSON),
   write_index_html env,
   write_vercel_json env,
   Effect.print ("\nGenerated \x27" ++ INDEX ++ "\x27.")]
  ++ (if env.argv.contains "--serve" || env.argv.contains "-s" then
        serve_local 8000
      else
        [Effect.print "To preview, run: python app.py --serve"])

end Flood

namespace Flood

/-- Helper: a structural anomaly is exactly a failed extraction of the
representative coordinate component. -/
theorem representative_eq_none_of_anomalous (gc : GeometryCollection)
    (h : anomalous gc = true) : representative gc = none := by
  rcases gc with ⟨fs⟩
  cases fs with
  | nil => rfl
  | cons f rest =>
    rcases f with ⟨geo, props⟩
    cases geo with
    | none => rfl
    | some coords =>
      simp only [anomalous, Option.isNone_iff_eq_none] at h
      simpa [representative] using h

/-- Helper: the representative of each §8 fixture, by evaluation. -/
theorem representative_pointFixture : representative pointFixture = some (79.86 : ℚ) := rfl

/-- Helper: the representative of the Polygon fixture, by evaluation. -/
theorem representative_polygonFixture :
    representative polygonFixture = some (312450.7 : ℚ) := rfl

/-- Helper: the representative of the MultiPolygon fixture, by evaluation. -/
theorem representative_multiPolygonFixture :
    representative multiPolygonFixture = some (80.1 : ℚ) := rfl

/-- C1: whenever the checker extracts a representative coordinate
component `v`, it classifies the collection as SuspiciousProjection when
`|v| > 180` (emitting the diagnostic that names `v`) and as Valid
otherwise; in particular the Polygon fixture whose first ring starts with
(312450.7, 812345.2) is classified SuspiciousProjection with a diagnostic
naming 312450.7. -/
theorem checker_threshold_classification :
    (∀ (gc : GeometryCollection) (v : ℚ), representative gc = some v →
      checkCoordinates gc =
        if 180 < |v| then (.SuspiciousProjection, some (diagnostic v))
        else (.Valid, none))
    ∧ checkCoordinates polygonFixture
        = (.SuspiciousProjection, some (diagnostic (312450.7 : ℚ))) := by
  constructor
  · intro gc v h
    simp [checkCoordinates, h]
  · have h : (180 : ℚ) < |(312450.7 : ℚ)| := by
      rw [abs_of_nonneg (by norm_num)]; norm_num
    simp [checkCoordinates, representative_polygonFixture, h]

/-- Witness for C1 at the Polygon fixture: the extraction hypothesis is
discharged by evaluation. -/
theorem checker_threshold_classification_witness :
    checkCoordinates polygonFixture
      = (.SuspiciousProjection, some (diagnostic (312450.7 : ℚ))) := by
  have h := checker_threshold_classification.1 polygonFixture 312450.7 rfl
  rw [h, if_pos (by rw [abs_of_nonneg (by norm_num)]; norm_num)]

/-- C2: the checker is a total function — it always returns one of the
three classifications and never raises (totality is by construction of
the embedding: `checkCoordinates` is a total Lean function) — and every
structural anomaly (zero Features, missing geometry, failed unwrap:
empty sequence, non-numeric leaf, type mismatch, unsupported variant)
yields Inconclusive. -/
theorem checker_total_never_aborts :
    ∀ gc : GeometryCollection,
      ((checkCoordinates gc).1 = .Valid ∨ (checkCoordinates gc).1 = .SuspiciousProjection ∨
        (checkCoordinates gc).1 = .Inconclusive)
      ∧ (anomalous gc = true → checkCoordinates gc = (.Inconclusive, none)) := by
  intro gc
  refine ⟨?_, ?_⟩
  · cases h : (checkCoordinates gc).1 <;> simp
  · intro h
    have hrep := representative_eq_none_of_anomalous gc h
    simp [checkCoordinates, hrep]

/-- Witness for C2 at the empty collection. -/
theorem checker_total_never_aborts_witness :
    checkCoordinates ⟨[]⟩ = (.Inconclusive, none) :=
  (checker_total_never_aborts ⟨[]⟩).2 rfl

/-- C3: a Geometry Collection with zero Features is classified
Inconclusive. -/
theorem checker_empty_collection_inconclusive :
    ∀ gc : GeometryCollection, gc.features = [] →
      checkCoordinates gc = (.Inconclusive, none) := by
  intro gc h
  have hrep : representative gc = none := by
    rcases gc with ⟨fs⟩
    simp only at h
    subst h
    rfl
  simp [checkCoordinates, hrep]

/-- Witness for C3: the empty collection itself. -/
theorem checker_empty_collection_inconclusive_witness :
    checkCoordinates (⟨[]⟩ : GeometryCollection) = (.Inconclusive, none) :=
  checker_empty_collection_inconclusive ⟨[]⟩ rfl

/-- C4: the extraction descends one nesting level whenever the first
element of the current sequence is itself a non-empty sequence (so a
MultiPolygon is unwrapped one level deeper than a Polygon), and the
MultiPolygon fixture with first scalar 80.1 is classified Valid. -/
theorem checker_unwrap_descent_multipolygon :
    (∀ (inner : JValue) (rest outer : List JValue),
        unwrap (.arr (.arr (inner :: rest) :: outer)) = unwrap (.arr (inner :: rest)))
    ∧ checkCoordinates multiPolygonFixture = (.Valid, none) := by
  constructor
  · intro inner rest outer
    rfl
  · have h : ¬ (180 : ℚ) < |(80.1 : ℚ)| := by
      rw [abs_of_nonneg (by norm_num)]; norm_num
    simp [checkCoordinates, representative_multiPolygonFixture, h]

/-- C5: the Point fixture with coordinates (79.86, 6.93) is classified
Valid. -/
theorem checker_point_fixture_valid :
    checkCoordinates pointFixture = (.Valid, none) := by
  have h : ¬ (180 : ℚ) < |(79.86 : ℚ)| := by
    rw [abs_of_nonneg (by norm_num)]; norm_num
  simp [checkCoordinates, representative_pointFixture, h]

/-- C6: the checker is pure — it is a function of its input alone (the
embedding has no state), so two invocations on the same input yield the
same classification. -/
theorem checker_pure_deterministic :
    ∀ g1 g2 : GeometryCollection, g1 = g2 →
      checkCoordinates g1 = checkCoordinates g2 := by
  intro g1 g2 h
  rw [h]

/-- Witness for C6 at the Point fixture. -/
theorem checker_pure_deterministic_witness :
    checkCoordinates pointFixture = checkCoordinates pointFixture :=
  checker_pure_deterministic pointFixture pointFixture rfl

/-- C7: `main` writes both output files in every environment — whatever
the command-line arguments and whether or not the TIFF and GeoJSON
inputs exist.  `main` never consults the checker (it does not occur in
`main` at all), so generation is not gated on any classification. -/
theorem main_always_writes_outputs :
    ∀ env : Env,
      Effect.writeFile INDEX (index_html SAFE_TIF GEOJSON) ∈ main env
      ∧ Effect.writeJson VERCEL vercel_json ∈ main env := by
  intro env
  constructor <;> simp [main, write_index_html, write_vercel_json]

/-- C8: `write_vercel_json` writes, in every environment, exactly the
fixed JSON object with version 2, one `@vercel/static` build of
`index.html`, and one route mapping every path to `/index.html`. -/
theorem write_vercel_json_fixed_content :
    ∀ env : Env,
      write_vercel_json env =
        Effect.writeJson "vercel.json"
          (.obj [("version", .num 2),
                 ("builds", .arr [.obj [("src", .str "index.html"),
                                        ("use", .str "@vercel/static")]]),
                 ("routes", .arr [.obj [("src", .str "/(.*)"),
                                        ("dest", .str "/index.html")]])]) := by
  intro env
  rfl

/-- C9: the local server is started exactly when the arguments contain
"--serve" or "-s"; otherwise `main` ends after the two writes with the
preview hint and starts no server. -/
theorem serve_iff_flag :
    ∀ env : Env,
      ((∃ p, Effect.serve p ∈ main env) ↔
        (env.argv.contains "--serve" = true ∨ env.argv.contains "-s" = true))
      ∧ ((env.argv.contains "--serve" || env.argv.contains "-s") = false →
          main env =
            [Effect.print "--- Flood Map Generator ---",
             if !env.tif_exists then Effect.print ("[MISSING] " ++ SAFE_TIF)
               else Effect.print ("[OK] " ++ SAFE_TIF),
             if !env.geo_exists then Effect.print ("[MISSING] " ++ GEOJSON)
               else Effect.print ("[OK] " ++ GEOJSON),
             write_index_html env,
             write_vercel_json env,
             Effect.print ("\nGenerated \x27" ++ INDEX ++ "\x27."),
             Effect.print "To preview, run: python app.py --serve"]) := by
  intro env
  rcases env with ⟨argv, tif, geo⟩
  by_cases hP : ("--serve" ∈ argv ∨ "-s" ∈ argv)
  · have hb : (argv.contains "--serve" || argv.contains "-s") = true := by
      simpa using hP
    refine ⟨⟨fun _ => by simpa using hP, fun _ => ⟨8000, ?_⟩⟩, fun h => ?_⟩
    · simp only [main, check_files]
      rw [if_pos hb]
      simp [serve_local]
    · have h2 : (argv.contains "--serve" || argv.contains "-s") = false := by
        simpa using h
      rw [h2] at hb
      exact absurd hb (by decide)
  · have hcond : ¬((argv.contains "--serve" || argv.contains "-s") = true) := by
      simpa using not_or.mp hP
    have hnoserve : ∀ p, Effect.serve p ∉ main ⟨argv, tif, geo⟩ := by
      intro p
      simp only [main, check_files]
      rw [if_neg hcond]
      cases tif <;> cases geo <;> simp [write_index_html, write_vercel_json]
    refine ⟨⟨fun hex => ?_, fun hor => ?_⟩, fun _ => ?_⟩
    · rcases hex with ⟨p, hp⟩
      exact absurd hp (hnoserve p)
    · exact absurd (by simpa using hor) hP
    · simp only [main, check_files]
      rw [if_neg hcond]
      rfl

/-- Witness for C9 in an environment with no serve flag and both inputs
missing. -/
theorem serve_iff_flag_witness :
    main ⟨[], false, false⟩ =
      [Effect.print "--- Flood Map Generator ---",
       Effect.print ("[MISSING] " ++ SAFE_TIF),
       Effect.print ("[MISSING] " ++ GEOJSON),
       write_index_html ⟨[], false, false⟩,
       write_vercel_json ⟨[], false, false⟩,
       Effect.print ("\nGenerated \x27" ++ INDEX ++ "\x27."),
       Effect.print "To preview, run: python app.py --serve"] := by
  have h := (serve_iff_flag ⟨[], false, false⟩).2 rfl
  simpa using h

/-- C10: `write_index_html` is deterministic — it writes byte-for-byte
identical content in any two environments, namely the template filled
with the module-level constants `SAFE_TIF` and `GEOJSON`. -/
theorem write_index_html_deterministic :
    ∀ e1 e2 : Env,
      write_index_html e1 = write_index_html e2
      ∧ write_index_html e1 =
          Effect.writeFile "index.html"
            (index_html "sentinel_2025-11-30.tif" "kelani.geojson") := by
  intro e1 e2
  exact ⟨rfl, rfl⟩

end Flood
